import Mathlib

/-!
Shallow embedding of the email-deliverability-tester repository
(src/src/email-tester.ts and the EmailSender module) together with proofs
about its documented behaviour.

External I/O (DNS resolution via dns.resolveMx / dns.resolveTxt, the AWS SES
client, and the nodemailer SMTP transporter) is modelled by oracle functions
carried in an environment record.  A throwing call is an Except.error value;
the catch blocks of the source are translated into matches on that value.
Wall-clock fields (testDuration, duration) are omitted: they are real time,
not part of any functional claim.
-/

namespace EmailDeliverability

/-- MX Record: exchange host plus integer priority (src/src/email-tester.ts, MxRecord). -/
structure MxRecord where
  exchange : String
  priority : Nat
deriving DecidableEq, Repr

/-- SMTP configuration (src/src/email-tester.ts, SmtpConfig).  The optional
auth block is a user/password pair. -/
structure SmtpConfig where
  host : String
  port : Nat
  secure : Bool
  auth : Option (String × String) := none
deriving DecidableEq, Repr

/-- Test message configuration (src/src/email-tester.ts, TestMessage). -/
structure TestMessage where
  subject : String
  text : String
  html : Option String := none
deriving DecidableEq, Repr

/-- Provider selector of EmailTestConfig: 'aws-ses' | 'smtp' | 'both'. -/
inductive TestProvider
  | awsSes
  | smtp
  | both
deriving DecidableEq, Repr

/-- Email test configuration (src/src/email-tester.ts, EmailTestConfig).
Optional TS fields become Option; the optional boolean skipActualDelivery
becomes Bool (undefined and false are both falsy at every use site). -/
structure EmailTestConfig where
  email : String
  provider : Option TestProvider := none
  smtpConfig : Option SmtpConfig := none
  testMessage : Option TestMessage := none
  skipActualDelivery : Bool := false

/-- Per-backend delivery outcome ({ success, messageId?, error? }). -/
structure DeliveryOutcome where
  success : Bool
  messageId : Option String := none
  error : Option String := none
deriving DecidableEq, Repr

/-- Delivery test results for the two providers (DeliveryTestResults). -/
structure DeliveryTestResults where
  awsSes : Option DeliveryOutcome := none
  smtp : Option DeliveryOutcome := none
deriving DecidableEq, Repr

/-- Complete email test result (EmailTestResult), without the wall-clock
testDuration field.  recommendations defaults to [] so that the record can be
built first and the recommendations synthesised from it, exactly as the
source mutates its Partial result object. -/
structure EmailTestResult where
  email : String
  isValid : Bool
  domainExists : Bool
  mxRecords : List MxRecord
  spfRecord : Option String := none
  dmarcRecord : Option String := none
  deliverabilityTests : DeliveryTestResults := {}
  recommendations : List String := []
deriving DecidableEq, Repr

/-- Batch test result summary (BatchTestResult), without the wall-clock
duration field. -/
structure BatchTestResult where
  successful : Nat
  failed : Nat
  total : Nat
  results : List EmailTestResult

/-- One entry of invalidEmails in EmailValidationResult. -/
structure InvalidEmailEntry where
  email : String
  issues : List String

/-- Summary block of EmailValidationResult. -/
structure ValidationSummary where
  total : Nat
  valid : Nat
  invalid : Nat
deriving DecidableEq, Repr

/-- Email validation result (EmailValidationResult). -/
structure EmailValidationResult where
  validEmails : List String
  invalidEmails : List InvalidEmailEntry
  summary : ValidationSummary

/-- Environment of external effects used by EmailDeliverabilityTester.
resolveMx / resolveTxt model the promisified dns calls (Except.error () is a
rejected promise; the catch blocks never look at the error value).
sesConfigured models whether the constructor created this.sesClient.
sesSend models an actual SendEmailCommand round trip: Except.ok carries
response.MessageId (possibly undefined), Except.error carries the message
computed by the catch block.  smtpSend models
createTransport + verify + sendMail for a given SmtpConfig: Except.ok
carries info.messageId. -/
structure TesterEnv where
  resolveMx : String → Except Unit (List MxRecord)
  resolveTxt : String → Except Unit (List (List String))
  sesConfigured : Bool
  sesSend : EmailTestConfig → Except String (Option String)
  smtpSend : SmtpConfig → EmailTestConfig → Except String String

/-- The character class complement of the JavaScript regex class \s
(whitespace as matched by /\s/). -/
def jsWhitespace (c : Char) : Bool :=
  c = '\t' || c = '\n' || c = '\x0b' || c = '\x0c' || c = '\r' || c = ' ' ||
  c = '\u00A0' || c = '\u1680' || ('\u2000' ≤ c && c ≤ '\u200A') ||
  c = '\u2028' || c = '\u2029' || c = '\u202F' || c = '\u205F' ||
  c = '\u3000' || c = '\uFEFF'

/-- A character accepted by the regex class [^\s@]. -/
def isEmailChar (c : Char) : Bool :=
  !(jsWhitespace c) && c != '@'

/-- Split a character list at its first '@': returns the characters before it
and the characters after it, or none when there is no '@'. -/
def splitAtFirstAtSign : List Char → Option (List Char × List Char)
  | [] => none
  | c :: cs =>
    if c = '@' then some ([], cs)
    else
      match splitAtFirstAtSign cs with
      | some (a, r) => some (c :: a, r)
      | none => none

/-- The part after the '@' matches [^\s@]+\.[^\s@]+ iff (all its characters
are in the class and) it has a '.' at some position other than the first and
the last: the '.' splits it into two nonempty class-only pieces ('.' itself
belongs to the class, so interior dots on either side are fine). -/
def hasInteriorDot (cs : List Char) : Bool :=
  ((cs.drop 1).dropLast).contains '.'

/-- validateEmailFormat (src/src/email-tester.ts lines 141-144): the regex
/^[^\s@]+@[^\s@]+\.[^\s@]+$/.  Every class in the pattern excludes '@', so a
match decomposes the string at its unique '@' into a nonempty class-only
local part and a tail matching [^\s@]+\.[^\s@]+. -/
def validateEmailFormat (email : String) : Bool :=
  match splitAtFirstAtSign email.data with
  | none => false
  | some (a, r) =>
    !a.isEmpty && a.all isEmailChar && r.all isEmailChar && hasInteriorDot r

/-- extractDomain: email.split('@')[1].  Only reached on regex-valid emails,
which contain an '@'; the default "" models the out-of-range case. -/
def extractDomain (email : String) : String :=
  (email.splitOn "@").getD 1 ""

/-- Return shape of checkDomainAndMX.  The source field is named exists,
which is a Lean keyword, hence existsFlag. -/
structure DomainCheck where
  existsFlag : Bool
  mxRecords : List MxRecord
deriving DecidableEq, Repr

/-- checkDomainAndMX (lines 156-163): resolve MX records, translating a
rejected promise into exists=false with an empty list (the source's
mxRecords || [] null guard is vacuous for a fulfilled List-valued promise). -/
def checkDomainAndMX (env : TesterEnv) (domain : String) : DomainCheck :=
  match env.resolveMx domain with
  | Except.ok mxRecords => { existsFlag := true, mxRecords := mxRecords }
  | Except.error _ => { existsFlag := false, mxRecords := [] }

/-- checkSpfRecord (lines 168-178): find a TXT record one of whose strings
starts (case-insensitively) with v=spf1 and join it; any rejection gives
undefined. -/
def checkSpfRecord (env : TesterEnv) (domain : String) : Option String :=
  match env.resolveTxt domain with
  | Except.ok txtRecords =>
    match txtRecords.find? (fun record =>
        record.any (fun txt => txt.toLower.startsWith "v=spf1")) with
    | some record => some (String.join record)
    | none => none
  | Except.error _ => none

/-- checkDmarcRecord (lines 183-194): same as checkSpfRecord but at
_dmarc.<domain> and pattern v=dmarc1. -/
def checkDmarcRecord (env : TesterEnv) (domain : String) : Option String :=
  match env.resolveTxt ("_dmarc." ++ domain) with
  | Except.ok txtRecords =>
    match txtRecords.find? (fun record =>
        record.any (fun txt => txt.toLower.startsWith "v=dmarc1")) with
    | some record => some (String.join record)
    | none => none
  | Except.error _ => none

/-- The sentinel outcome returned in skip-delivery mode. -/
def sentinelDelivery : DeliveryOutcome :=
  { success := true, messageId := some "skipped-test-mode" }

/-- The outcome testAwsSesDelivery returns when this.sesClient is absent. -/
def sesNotConfiguredOutcome : DeliveryOutcome :=
  { success := false, error := some "AWS SES not configured" }

/-- The outcome testSmtpDelivery returns when config.smtpConfig is absent. -/
def smtpNotProvidedOutcome : DeliveryOutcome :=
  { success := false, error := some "SMTP configuration not provided" }

/-- testAwsSesDelivery (lines 199-247): not-configured guard first, then the
skip-delivery sentinel, then the real SendEmailCommand attempt with its
catch block. -/
def testAwsSesDelivery (env : TesterEnv) (config : EmailTestConfig) : DeliveryOutcome :=
  if !env.sesConfigured then
    sesNotConfiguredOutcome
  else if config.skipActualDelivery then
    sentinelDelivery
  else
    match env.sesSend config with
    | Except.ok mid => { success := true, messageId := mid }
    | Except.error e => { success := false, error := some e }

/-- testSmtpDelivery (lines 252-288): missing-smtpConfig guard first, then
the skip-delivery sentinel, then createTransport + verify + sendMail with
its catch block. -/
def testSmtpDelivery (env : TesterEnv) (config : EmailTestConfig) : DeliveryOutcome :=
  match config.smtpConfig with
  | none => smtpNotProvidedOutcome
  | some smtpConfig =>
    if config.skipActualDelivery then
      sentinelDelivery
    else
      match env.smtpSend smtpConfig config with
      | Except.ok mid => { success := true, messageId := some mid }
      | Except.error e => { success := false, error := some e }

/-- JavaScript template interpolation of a possibly-undefined string. -/
def jsInterp : Option String → String
  | some s => s
  | none => "undefined"

/-- Truthiness of an optional string as tested by ! in the source:
undefined and the empty string are falsy. -/
def strFalsy : Option String → Bool
  | none => true
  | some s => s == ""

/-- The strict === false test applied to an optional backend outcome. -/
def outcomeFailed : Option DeliveryOutcome → Bool
  | some d => d.success == false
  | none => false

def invalidFormatMsg : String :=
  "Email format is invalid. Please check the email address."

def domainMsg : String :=
  "Domain does not exist or has no MX records. Check domain configuration."

def noMxMsg : String := "No MX records found. Email delivery may fail."

def noSpfMsg : String :=
  "No SPF record found. Consider adding an SPF record to improve deliverability."

def noDmarcMsg : String :=
  "No DMARC record found. Consider adding a DMARC policy for better email security."

def sesFailedMsg (e : Option String) : String :=
  "AWS SES delivery failed: " ++ jsInterp e

def smtpFailedMsg (e : Option String) : String :=
  "SMTP delivery failed: " ++ jsInterp e

def allPassedMsg : String :=
  "Email appears to be deliverable. All tests passed successfully."

/-- One conditional recommendations.push(m). -/
def condLine (b : Bool) (m : String) : List String :=
  if b then [m] else []

/-- The backend-failure push for one optional backend outcome. -/
def backendFailLine (mk : Option String → String) : Option DeliveryOutcome → List String
  | some d => condLine (d.success == false) (mk d.error)
  | none => []

/-- The deficiency lines pushed by generateRecommendations (lines 293-322),
in source order.  At both call sites isValid, domainExists and mxRecords are
already set on the partial result, so the truthiness guard on mxRecords is
always satisfied; the falsy tests on spfRecord/dmarcRecord and the strict
=== false tests on the backend outcomes are modelled verbatim. -/
def deficiencyLines (r : EmailTestResult) : List String :=
  condLine (!r.isValid) invalidFormatMsg ++
  condLine (!r.domainExists) domainMsg ++
  condLine (r.mxRecords.length == 0) noMxMsg ++
  condLine (strFalsy r.spfRecord) noSpfMsg ++
  condLine (strFalsy r.dmarcRecord) noDmarcMsg ++
  backendFailLine sesFailedMsg r.deliverabilityTests.awsSes ++
  backendFailLine smtpFailedMsg r.deliverabilityTests.smtp

/-- generateRecommendations (lines 293-329): the deficiency lines, or the
single success line when none was pushed.  The recommendations field of the
argument is ignored, as in the source. -/
def generateRecommendations (r : EmailTestResult) : List String :=
  let recommendations := deficiencyLines r
  if recommendations.length == 0 then [allPassedMsg] else recommendations

/-- testEmailDeliverability (lines 334-383): format check with an immediate
short-circuit return, then domain/MX, SPF, DMARC lookups, then the
per-provider delivery tests (provider defaults to 'both'), then
recommendation synthesis from the assembled result. -/
def testEmailDeliverability (env : TesterEnv) (config : EmailTestConfig) : EmailTestResult :=
  let isValid := validateEmailFormat config.email
  if !isValid then
    let r0 : EmailTestResult :=
      { email := config.email, isValid := false, domainExists := false, mxRecords := [] }
    { r0 with recommendations := generateRecommendations r0 }
  else
    let domain := extractDomain config.email
    let domainCheck := checkDomainAndMX env domain
    let provider := config.provider.getD TestProvider.both
    let awsSes :=
      if provider = TestProvider.awsSes ∨ provider = TestProvider.both then
        some (testAwsSesDelivery env config)
      else none
    let smtp :=
      if provider = TestProvider.smtp ∨ provider = TestProvider.both then
        some (testSmtpDelivery env config)
      else none
    let r0 : EmailTestResult :=
      { email := config.email
        isValid := isValid
        domainExists := domainCheck.existsFlag
        mxRecords := domainCheck.mxRecords
        spfRecord := checkSpfRecord env domain
        dmarcRecord := checkDmarcRecord env domain
        deliverabilityTests := { awsSes := awsSes, smtp := smtp } }
    { r0 with recommendations := generateRecommendations r0 }

/-- The deliverability test of the batch loop:
result.isValid && result.domainExists && result.mxRecords.length > 0. -/
def deliverableResult (r : EmailTestResult) : Bool :=
  r.isValid && r.domainExists && decide (r.mxRecords.length > 0)

/-- The failed result pushed by the catch block of testMultipleEmails
(lines 406-416). -/
def batchErrorResult (email msg : String) : EmailTestResult :=
  { email := email, isValid := false, domainExists := false, mxRecords := []
    recommendations := ["Error testing email: " ++ msg] }

/-- One iteration of the testMultipleEmails loop over the accumulator
(successful, failed, results): try the per-item runner, count deliverable
vs not, and convert a per-item exception into batchErrorResult. -/
def batchStep (run : EmailTestConfig → Except String EmailTestResult)
    (acc : Nat × Nat × List EmailTestResult) (config : EmailTestConfig) :
    Nat × Nat × List EmailTestResult :=
  match run config with
  | Except.ok result =>
    if deliverableResult result then (acc.1 + 1, acc.2.1, acc.2.2 ++ [result])
    else (acc.1, acc.2.1 + 1, acc.2.2 ++ [result])
  | Except.error msg =>
    (acc.1, acc.2.1 + 1, acc.2.2 ++ [batchErrorResult config.email msg])

/-- testMultipleEmails (lines 388-426), generic in the per-item runner so
that the try/catch around each this.testEmailDeliverability call is visible:
a runner returning Except.error models a rejected per-item promise. -/
def testMultipleEmailsWith (run : EmailTestConfig → Except String EmailTestResult)
    (configs : List EmailTestConfig) : BatchTestResult :=
  let fin := configs.foldl (batchStep run) (0, 0, [])
  { successful := fin.1, failed := fin.2.1, total := configs.length, results := fin.2.2 }

/-- testMultipleEmails as called in the source, where the per-item body is
testEmailDeliverability (a total function in this model, so the runner never
rejects). -/
def testMultipleEmails (env : TesterEnv) (configs : List EmailTestConfig) : BatchTestResult :=
  testMultipleEmailsWith (fun config => Except.ok (testEmailDeliverability env config)) configs

/-- The value contributed to results by one config: the runner's result, or
the converted error result. -/
def batchItemResult (run : EmailTestConfig → Except String EmailTestResult)
    (config : EmailTestConfig) : EmailTestResult :=
  match run config with
  | Except.ok result => result
  | Except.error msg => batchErrorResult config.email msg

/-- validateEmails (lines 431-464): build skip-delivery configs, run the
batch, partition results by the deliverability test, and report issues
filtered of lines containing "successfully" (String.includes is infix
containment). -/
def validateEmails (env : TesterEnv) (emails : List String) : EmailValidationResult :=
  let configs := emails.map (fun email =>
    { email := email, skipActualDelivery := true : EmailTestConfig })
  let batchResult := testMultipleEmails env configs
  let validEmails :=
    (batchResult.results.filter deliverableResult).map (fun r => r.email)
  let invalidEmails :=
    (batchResult.results.filter (fun r => !deliverableResult r)).map (fun r =>
      { email := r.email
        issues := r.recommendations.filter
          (fun rec => !(decide ("successfully".data <:+: rec.data))) : InvalidEmailEntry })
  { validEmails := validEmails
    invalidEmails := invalidEmails
    summary :=
      { total := emails.length
        valid := validEmails.length
        invalid := invalidEmails.length } }

/-! ### EmailSender (the email-sender module)

The EmailSender class holds an optional SES client and an optional SMTP
transporter, both fixed at construction.  Each is modelled by its observable
send behaviour: an oracle returning Except.ok with the provider message id or
Except.error with the message that the corresponding catch block would
extract from the thrown value. -/

/-- Email attachment; only its presence drives control flow (the raw-MIME
branch of sendWithSes). -/
structure EmailAttachment where
  filename : String
  content : String

/-- Email options (EmailOptions).  to/cc/bcc accept one address or several;
a list models both.  The TS fields to and from are Lean keywords, hence
toAddrs and fromAddr. -/
structure EmailOptions where
  toAddrs : List String
  fromAddr : Option String := none
  subject : String := ""
  text : Option String := none
  html : Option String := none
  cc : List String := []
  bcc : List String := []
  replyTo : Option String := none
  attachments : List EmailAttachment := []

/-- Behaviour of a constructed SESClient: sendEmail models a
SendEmailCommand round trip (ok carries response.MessageId, possibly
undefined); sendRawEmail models the whole raw-MIME path of
sendRawEmailWithSes, nodemailer MIME generation included. -/
structure SesClientModel where
  sendEmail : EmailOptions → Except String (Option String)
  sendRawEmail : EmailOptions → Except String (Option String)

/-- Behaviour of a constructed nodemailer transporter: verify() followed by
sendMail() inside one try block — a throw from either lands in the same catch
— so both are folded into one oracle; ok carries info.messageId. -/
structure SmtpTransporterModel where
  verifyAndSend : EmailOptions → Except String String

/-- The provider tag of EmailSendResult: 'aws-ses' | 'smtp'. -/
inductive SendProvider
  | awsSes
  | smtp
deriving DecidableEq, Repr

/-- Email send result (EmailSendResult). -/
structure EmailSendResult where
  success : Bool
  messageId : Option String := none
  error : Option String := none
  provider : SendProvider
deriving DecidableEq, Repr

/-- The instance state of EmailSender after construction. -/
structure EmailSenderState where
  sesClient : Option SesClientModel
  smtpTransporter : Option SmtpTransporterModel
  defaultFromEmail : String

/-- sendWithSes: not-configured guard, then the raw-MIME branch when
attachments are present, else the simple SendEmailCommand, each with its
catch block mapped to an in-band failure result. -/
def sendWithSes (st : EmailSenderState) (emailOptions : EmailOptions) : EmailSendResult :=
  match st.sesClient with
  | none =>
    { success := false
      error := some "AWS SES not configured. Please provide AWS credentials."
      provider := SendProvider.awsSes }
  | some client =>
    if emailOptions.attachments.length > 0 then
      match client.sendRawEmail emailOptions with
      | Except.ok mid => { success := true, messageId := mid, provider := SendProvider.awsSes }
      | Except.error e => { success := false, error := some e, provider := SendProvider.awsSes }
    else
      match client.sendEmail emailOptions with
      | Except.ok mid => { success := true, messageId := mid, provider := SendProvider.awsSes }
      | Except.error e => { success := false, error := some e, provider := SendProvider.awsSes }

/-- sendWithSmtp: not-configured guard, then verify + sendMail with the
catch block mapped to an in-band failure result. -/
def sendWithSmtp (st : EmailSenderState) (emailOptions : EmailOptions) : EmailSendResult :=
  match st.smtpTransporter with
  | none =>
    { success := false
      error := some "SMTP not configured. Please provide SMTP configuration."
      provider := SendProvider.smtp }
  | some transporter =>
    match transporter.verifyAndSend emailOptions with
    | Except.ok mid => { success := true, messageId := some mid, provider := SendProvider.smtp }
    | Except.error e => { success := false, error := some e, provider := SendProvider.smtp }

/-- The final fallthrough result of send when no provider handled the
attempt; note the aws-ses provider tag. -/
def noProviderResult : EmailSendResult :=
  { success := false
    error := some "No email provider configured. Please configure AWS SES or SMTP."
    provider := SendProvider.awsSes }

/-- EmailSender.send: explicit provider dispatch, else try SES when its
client exists and keep its result only on success, else SMTP when its
transporter exists, else the no-provider failure. -/
def send (st : EmailSenderState) (emailOptions : EmailOptions)
    (provider : Option SendProvider) : EmailSendResult :=
  match provider with
  | some SendProvider.awsSes => sendWithSes st emailOptions
  | some SendProvider.smtp => sendWithSmtp st emailOptions
  | none =>
    let smtpStage :=
      match st.smtpTransporter with
      | some _ => sendWithSmtp st emailOptions
      | none => noProviderResult
    match st.sesClient with
    | some _ =>
      let sesResult := sendWithSes st emailOptions
      if sesResult.success then sesResult else smtpStage
    | none => smtpStage

/-! ### Concrete instances used in witnesses and counterexamples -/


/-- An environment in which every external call fails (DNS rejections, no SES client, failing send oracles). -/
def failEnv : TesterEnv :=
  { resolveMx := fun _ => Except.error ()
    resolveTxt := fun _ => Except.error ()
    sesConfigured := false
    sesSend := fun _ => Except.error "unreachable"
    smtpSend := fun _ _ => Except.error "unreachable" }

/-- An environment in which every external call succeeds. -/
def okEnv : TesterEnv :=
  { resolveMx := fun _ => Except.ok [{ exchange := "mx1.example.com", priority := 10 }]
    resolveTxt := fun _ => Except.ok [["v=spf1 include:example.com ~all"]]
    sesConfigured := true
    sesSend := fun _ => Except.ok (some "ses-id")
    smtpSend := fun _ _ => Except.ok "smtp-id" }

/-- A skip-delivery config requesting the aws-ses backend. -/
def skipSesConfig : EmailTestConfig :=
  { email := "user@example.com", provider := some TestProvider.awsSes, skipActualDelivery := true }

/-- A skip-delivery config that supplies an smtpConfig. -/
def skipSmtpConfigW : EmailTestConfig :=
  { email := "user@example.com"
    smtpConfig := some { host := "smtp.example.com", port := 587, secure := false }
    skipActualDelivery := true }

/-- A test result exhibiting several deficiencies at once. -/
def rBadW : EmailTestResult :=
  { email := "bad@@", isValid := false, domainExists := false, mxRecords := []
    deliverabilityTests := { awsSes := some { success := false, error := some "err" } } }

/-- A per-item runner that rejects exactly on configs requesting the smtp provider, and succeeds with a deliverable result otherwise. -/
def runW : EmailTestConfig → Except String EmailTestResult := fun config =>
  match config.provider with
  | some TestProvider.smtp => Except.error "kaput"
  | _ => Except.ok { email := config.email, isValid := true, domainExists := true
                     mxRecords := [{ exchange := "mx1.example.com", priority := 10 }] }

/-- A config on which runW rejects. -/
def cfgBoomW : EmailTestConfig := { email := "boom", provider := some TestProvider.smtp }

/-- A config on which runW succeeds. -/
def cfgOkW : EmailTestConfig := { email := "ok@example.com" }

/-- An SES client whose send attempts always throw. -/
def sesFailClient : SesClientModel :=
  { sendEmail := fun _ => Except.error "ses boom"
    sendRawEmail := fun _ => Except.error "ses raw boom" }

/-- A sender state with only a failing SES client configured. -/
def stSesOnlyFail : EmailSenderState :=
  { sesClient := some sesFailClient, smtpTransporter := none
    defaultFromEmail := "no-reply@example.com" }

/-- Concrete email options. -/
def optsW : EmailOptions := { toAddrs := ["rcpt@example.com"], subject := "Test" }

/-- An SMTP transporter whose verify + send succeeds. -/
def okTransporterW : SmtpTransporterModel := { verifyAndSend := fun _ => Except.ok "smtp-id" }

/-- A sender state with only an SMTP transporter configured. -/
def stSmtpOnlyW : EmailSenderState :=
  { sesClient := none, smtpTransporter := some okTransporterW
    defaultFromEmail := "no-reply@example.com" }

/-- A sender state with no backend configured at all. -/
def stNoneW : EmailSenderState :=
  { sesClient := none, smtpTransporter := none, defaultFromEmail := "no-reply@example.com" }

/-! ### Helper lemmas -/


/-- splitAtFirstAtSign finds nothing in a list without an at sign. -/
theorem splitAtFirstAtSign_eq_none {cs : List Char} (h : '@' ∉ cs) :
    splitAtFirstAtSign cs = none := by
  induction cs with
  | nil => rfl
  | cons c cs ih =>
    simp only [List.mem_cons, not_or] at h
    have hc : ¬(c = '@') := fun hceq => h.1 hceq.symm
    rw [splitAtFirstAtSign, if_neg hc, ih h.2]

/-- A successful splitAtFirstAtSign is a decomposition of the input at an at sign. -/
theorem splitAtFirstAtSign_eq_some : ∀ {cs a r : List Char},
    splitAtFirstAtSign cs = some (a, r) → cs = a ++ '@' :: r := by
  intro cs
  induction cs with
  | nil => intro a r h; simp [splitAtFirstAtSign] at h
  | cons c cs ih =>
    intro a r h
    by_cases hc : c = '@'
    · rw [splitAtFirstAtSign, if_pos hc] at h
      cases h
      simp [hc]
    · rw [splitAtFirstAtSign, if_neg hc] at h
      cases hsplit : splitAtFirstAtSign cs with
      | none => rw [hsplit] at h; cases h
      | some p =>
        obtain ⟨a2, r2⟩ := p
        rw [hsplit] at h
        cases h
        simpa using ih hsplit

/-- An interior dot is in particular a member of the list. -/
theorem mem_of_hasInteriorDot {cs : List Char} (h : hasInteriorDot cs = true) :
    '.' ∈ cs := by
  unfold hasInteriorDot at h
  have h1 : '.' ∈ (cs.drop 1).dropLast := by
    simpa using h
  exact ((List.dropLast_sublist _).trans (List.drop_sublist _ _)).subset h1

/-- condLine contributes length 1 exactly when its condition holds. -/
theorem condLine_length (b : Bool) (m : String) : (condLine b m).length = b.toNat := by
  cases b <;> simp [condLine]

/-- backendFailLine contributes length 1 exactly when the outcome is a strict failure. -/
theorem backendFailLine_length (mk : Option String → String) (o : Option DeliveryOutcome) :
    (backendFailLine mk o).length = (outcomeFailed o).toNat := by
  cases o <;> simp [backendFailLine, outcomeFailed, condLine_length]

/-- The number of deficiency lines is the number of deficiencies. -/
theorem deficiencyLines_length (r : EmailTestResult) :
    (deficiencyLines r).length =
      (!r.isValid).toNat + (!r.domainExists).toNat + (r.mxRecords.length == 0).toNat +
      (strFalsy r.spfRecord).toNat + (strFalsy r.dmarcRecord).toNat +
      (outcomeFailed r.deliverabilityTests.awsSes).toNat +
      (outcomeFailed r.deliverabilityTests.smtp).toNat := by
  simp only [deficiencyLines, List.length_append, condLine_length, backendFailLine_length]

/-- An error result of the batch loop is never deliverable. -/
theorem deliverableResult_batchErrorResult (email msg : String) :
    deliverableResult (batchErrorResult email msg) = false := rfl

/-- One step of the batch loop, phrased uniformly through batchItemResult. -/
theorem batchStep_eq (run : EmailTestConfig → Except String EmailTestResult)
    (acc : Nat × Nat × List EmailTestResult) (config : EmailTestConfig) :
    batchStep run acc config =
      (acc.1 + (deliverableResult (batchItemResult run config)).toNat,
       acc.2.1 + (!deliverableResult (batchItemResult run config)).toNat,
       acc.2.2 ++ [batchItemResult run config]) := by
  unfold batchStep batchItemResult
  cases run config with
  | ok result => by_cases hd : deliverableResult result <;> simp [hd]
  | error msg => simp [deliverableResult_batchErrorResult]

/-- The batch fold counts deliverable and non-deliverable items and appends the per-item results in input order. -/
theorem batchFold (run : EmailTestConfig → Except String EmailTestResult)
    (configs : List EmailTestConfig) :
    ∀ acc : Nat × Nat × List EmailTestResult,
      configs.foldl (batchStep run) acc =
        (acc.1 + (configs.map (batchItemResult run)).countP deliverableResult,
         acc.2.1 + (configs.map (batchItemResult run)).countP (fun x => !deliverableResult x),
         acc.2.2 ++ configs.map (batchItemResult run)) := by
  induction configs with
  | nil => intro acc; simp
  | cons c cs ih =>
    intro acc
    rw [List.foldl_cons, batchStep_eq, ih]
    refine Prod.ext ?_ (Prod.ext ?_ ?_)
    · simp [List.countP_cons]
      cases deliverableResult (batchItemResult run c) <;> simp <;> omega
    · simp [List.countP_cons]
      cases deliverableResult (batchItemResult run c) <;> simp <;> omega
    · simp

/-- Closed form of testMultipleEmailsWith. -/
theorem testMultipleEmailsWith_eq (run : EmailTestConfig → Except String EmailTestResult)
    (configs : List EmailTestConfig) :
    testMultipleEmailsWith run configs =
      { successful := (configs.map (batchItemResult run)).countP deliverableResult
        failed := (configs.map (batchItemResult run)).countP (fun x => !deliverableResult x)
        total := configs.length
        results := configs.map (batchItemResult run) } := by
  unfold testMultipleEmailsWith
  rw [batchFold]
  simp

/-- A predicate count and its complement count add up to the length. -/
theorem countP_add_countP_not (p : EmailTestResult → Bool) (l : List EmailTestResult) :
    l.countP p + l.countP (fun x => !p x) = l.length := by
  induction l with
  | nil => simp
  | cons x xs ih =>
    simp only [List.countP_cons, List.length_cons]
    cases p x <;> simp <;> omega

/-! ### Claims -/


/-- Claim C1, counterexample: with skipActualDelivery set but no AWS SES client configured, the per-backend result of testEmailDeliverability for aws-ses is the not-configured failure, not the sentinel success — the configuration guard runs before the skip check. -/
theorem claim1_counterexample :
    skipSesConfig.skipActualDelivery = true ∧
    (testEmailDeliverability failEnv skipSesConfig).deliverabilityTests.awsSes
      = some sesNotConfiguredOutcome ∧
    sesNotConfiguredOutcome ≠ sentinelDelivery := by
  refine ⟨rfl, ?_, by decide⟩
  decide

/-- Claim C1, amended: with skipActualDelivery set, testEmailDeliverability never consults a send oracle (its result is independent of the sesSend/smtpSend oracles), and each per-backend result is the sentinel success when that backend is configured (SES client present / smtpConfig supplied), and the corresponding not-configured failure otherwise. -/
theorem claim1_theorem (mx : String → Except Unit (List MxRecord))
    (txt : String → Except Unit (List (List String))) (sc : Bool)
    (ses ses2 : EmailTestConfig → Except String (Option String))
    (sm sm2 : SmtpConfig → EmailTestConfig → Except String String)
    (config : EmailTestConfig) (h : config.skipActualDelivery = true) :
    testEmailDeliverability ⟨mx, txt, sc, ses, sm⟩ config
      = testEmailDeliverability ⟨mx, txt, sc, ses2, sm2⟩ config ∧
    (sc = true → testAwsSesDelivery ⟨mx, txt, sc, ses, sm⟩ config = sentinelDelivery) ∧
    (sc = false → testAwsSesDelivery ⟨mx, txt, sc, ses, sm⟩ config = sesNotConfiguredOutcome) ∧
    (∀ s, config.smtpConfig = some s →
      testSmtpDelivery ⟨mx, txt, sc, ses, sm⟩ config = sentinelDelivery) ∧
    (config.smtpConfig = none →
      testSmtpDelivery ⟨mx, txt, sc, ses, sm⟩ config = smtpNotProvidedOutcome) := by
  have hses : testAwsSesDelivery ⟨mx, txt, sc, ses, sm⟩ config
      = testAwsSesDelivery ⟨mx, txt, sc, ses2, sm2⟩ config := by
    simp [testAwsSesDelivery, h]
  have hsmtp : testSmtpDelivery ⟨mx, txt, sc, ses, sm⟩ config
      = testSmtpDelivery ⟨mx, txt, sc, ses2, sm2⟩ config := by
    unfold testSmtpDelivery
    cases config.smtpConfig <;> simp [h]
  refine ⟨?_, fun hsc => ?_, fun hsc => ?_, fun s hs => ?_, fun hs => ?_⟩
  · have hmx : checkDomainAndMX ⟨mx, txt, sc, ses, sm⟩ = checkDomainAndMX ⟨mx, txt, sc, ses2, sm2⟩ := rfl
    have hspf : checkSpfRecord ⟨mx, txt, sc, ses, sm⟩ = checkSpfRecord ⟨mx, txt, sc, ses2, sm2⟩ := rfl
    have hdm : checkDmarcRecord ⟨mx, txt, sc, ses, sm⟩ = checkDmarcRecord ⟨mx, txt, sc, ses2, sm2⟩ := rfl
    unfold testEmailDeliverability
    simp only [hses, hsmtp, hmx, hspf, hdm]
  · simp [testAwsSesDelivery, h, hsc]
  · simp [testAwsSesDelivery, h, hsc]
  · simp [testSmtpDelivery, h, hs]
  · simp [testSmtpDelivery, h, hs]

/-- Claim C1, witness: at a concrete skip-delivery config with SES configured and an smtpConfig supplied, both backend results are the sentinel success. -/
theorem claim1_witness :
    testAwsSesDelivery ⟨fun _ => Except.error (), fun _ => Except.error (), true,
        fun _ => Except.error "e", fun _ _ => Except.error "e"⟩ skipSmtpConfigW
      = sentinelDelivery ∧
    testSmtpDelivery ⟨fun _ => Except.error (), fun _ => Except.error (), true,
        fun _ => Except.error "e", fun _ _ => Except.error "e"⟩ skipSmtpConfigW
      = sentinelDelivery := by
  have h := claim1_theorem (fun _ => Except.error ()) (fun _ => Except.error ()) true
    (fun _ => Except.error "e") (fun _ => Except.error "e")
    (fun _ _ => Except.error "e") (fun _ _ => Except.error "e") skipSmtpConfigW rfl
  exact ⟨h.2.1 rfl, h.2.2.2.1 _ rfl⟩

/-- Claim C2: for every per-item runner and list of N configs, the batch returns total = N, a results list of length N in input order (one item per config via batchItemResult), successful = the count of results passing the deliverability test, failed the rest with successful + failed = N, and a rejecting item is converted into the failed error result rather than aborting the batch. -/
theorem claim2_theorem (run : EmailTestConfig → Except String EmailTestResult)
    (configs : List EmailTestConfig) :
    (testMultipleEmailsWith run configs).total = configs.length ∧
    (testMultipleEmailsWith run configs).results = configs.map (batchItemResult run) ∧
    (testMultipleEmailsWith run configs).results.length = configs.length ∧
    (testMultipleEmailsWith run configs).successful =
      (testMultipleEmailsWith run configs).results.countP deliverableResult ∧
    (testMultipleEmailsWith run configs).failed =
      (testMultipleEmailsWith run configs).results.countP (fun x => !deliverableResult x) ∧
    (testMultipleEmailsWith run configs).successful + (testMultipleEmailsWith run configs).failed
      = configs.length ∧
    (∀ config msg, run config = Except.error msg →
      batchItemResult run config = batchErrorResult config.email msg) := by
  rw [testMultipleEmailsWith_eq]
  refine ⟨rfl, rfl, by simp, rfl, rfl, ?_, ?_⟩
  · rw [countP_add_countP_not]
    simp
  · intro config msg h
    unfold batchItemResult
    rw [h]

/-- Claim C2, witness: a two-element batch whose second item rejects yields total 2, one success, one failure, and the converted error result. -/
theorem claim2_witness :
    (testMultipleEmailsWith runW [cfgOkW, cfgBoomW]).total = 2 ∧
    (testMultipleEmailsWith runW [cfgOkW, cfgBoomW]).successful = 1 ∧
    (testMultipleEmailsWith runW [cfgOkW, cfgBoomW]).failed = 1 ∧
    batchItemResult runW cfgBoomW = batchErrorResult "boom" "kaput" := by
  have h := claim2_theorem runW [cfgOkW, cfgBoomW]
  refine ⟨h.1, by decide, by decide, h.2.2.2.2.2.2 cfgBoomW "kaput" rfl⟩

/-- Claim C3: when the email fails the format regex, testEmailDeliverability returns isValid = false, domainExists = false, empty mxRecords, recommendations containing the invalid-format message, and the result does not depend on the environment at all (no DNS or backend step is reached). -/
theorem claim3_theorem (env env2 : TesterEnv) (config : EmailTestConfig)
    (h : validateEmailFormat config.email = false) :
    (testEmailDeliverability env config).isValid = false ∧
    (testEmailDeliverability env config).domainExists = false ∧
    (testEmailDeliverability env config).mxRecords = [] ∧
    invalidFormatMsg ∈ (testEmailDeliverability env config).recommendations ∧
    testEmailDeliverability env config = testEmailDeliverability env2 config := by
  refine ⟨?_, ?_, ?_, ?_, ?_⟩ <;>
    simp [testEmailDeliverability, h, generateRecommendations, deficiencyLines, condLine,
      strFalsy, backendFailLine]

/-- Claim C3, witness: the concrete input invalid-email. -/
theorem claim3_witness :
    (testEmailDeliverability failEnv { email := "invalid-email" }).isValid = false ∧
    invalidFormatMsg ∈ (testEmailDeliverability failEnv { email := "invalid-email" }).recommendations := by
  have h := claim3_theorem failEnv okEnv { email := "invalid-email" } (by decide)
  exact ⟨h.1, h.2.2.2.1⟩

/-- Claim C4, counterexample: with a configured but failing SES client and no SMTP transporter, send with no explicit provider does not fall back to the SMTP backend — it returns the generic no-provider failure tagged aws-ses, which differs from sendWithSmtp's result. -/
theorem claim4_counterexample :
    (sendWithSes stSesOnlyFail optsW).success = false ∧
    send stSesOnlyFail optsW none ≠ sendWithSmtp stSesOnlyFail optsW ∧
    (send stSesOnlyFail optsW none).provider = SendProvider.awsSes := by
  refine ⟨rfl, by decide, rfl⟩

/-- Claim C4, amended: explicit provider selection dispatches exactly to that backend with no fallback; with no explicit provider, a successful SES attempt is returned as is, a failed SES attempt falls back to SMTP provided the SMTP transporter is configured, and an unconfigured SES falls through to SMTP when the transporter is configured. -/
theorem claim4_theorem (st : EmailSenderState) (opts : EmailOptions) :
    send st opts (some SendProvider.awsSes) = sendWithSes st opts ∧
    send st opts (some SendProvider.smtp) = sendWithSmtp st opts ∧
    (∀ c, st.sesClient = some c → (sendWithSes st opts).success = true →
      send st opts none = sendWithSes st opts) ∧
    (∀ c t, st.sesClient = some c → st.smtpTransporter = some t →
      (sendWithSes st opts).success = false → send st opts none = sendWithSmtp st opts) ∧
    (∀ t, st.sesClient = none → st.smtpTransporter = some t →
      send st opts none = sendWithSmtp st opts) := by
  refine ⟨rfl, rfl, ?_, ?_, ?_⟩
  · intro c hc hs
    simp [send, hc, hs]
  · intro c t hc ht hs
    simp [send, hc, ht, hs]
  · intro t hc ht
    simp [send, hc, ht]

/-- Claim C4, witness: with only SMTP configured, autodetection dispatches to sendWithSmtp. -/
theorem claim4_witness :
    send stSmtpOnlyW optsW none = sendWithSmtp stSmtpOnlyW optsW :=
  (claim4_theorem stSmtpOnlyW optsW).2.2.2.2 okTransporterW rfl rfl

/-- Claim C5: validateEmails partitions the batch results, so validEmails.length + invalidEmails.length = N, and the summary reports total = N, valid = validEmails.length, invalid = invalidEmails.length; the empty list yields the all-empty, all-zero result. -/
theorem claim5_theorem (env : TesterEnv) (emails : List String) :
    (validateEmails env emails).validEmails.length
        + (validateEmails env emails).invalidEmails.length = emails.length ∧
    (validateEmails env emails).summary.total = emails.length ∧
    (validateEmails env emails).summary.valid = (validateEmails env emails).validEmails.length ∧
    (validateEmails env emails).summary.invalid = (validateEmails env emails).invalidEmails.length ∧
    validateEmails env [] =
      { validEmails := [], invalidEmails := []
        summary := { total := 0, valid := 0, invalid := 0 } } := by
  refine ⟨?_, rfl, rfl, rfl, rfl⟩
  simp only [validateEmails, testMultipleEmails, testMultipleEmailsWith_eq]
  simp only [List.length_map, ← List.countP_eq_length_filter]
  rw [countP_add_countP_not]
  simp

/-- Claim C6: a rejected MX resolution yields exists = false with an empty MX list, and rejected TXT resolutions yield absent SPF and DMARC records; all three checks are total functions, so no exception propagates. -/
theorem claim6_theorem (env : TesterEnv) (domain : String) :
    (env.resolveMx domain = Except.error () →
      checkDomainAndMX env domain = { existsFlag := false, mxRecords := [] }) ∧
    (env.resolveTxt domain = Except.error () → checkSpfRecord env domain = none) ∧
    (env.resolveTxt ("_dmarc." ++ domain) = Except.error () → checkDmarcRecord env domain = none) := by
  refine ⟨fun h => ?_, fun h => ?_, fun h => ?_⟩ <;>
    simp [checkDomainAndMX, checkSpfRecord, checkDmarcRecord, h]

/-- Claim C6, witness: the concrete all-failing environment on example.com. -/
theorem claim6_witness :
    checkDomainAndMX failEnv "example.com" = { existsFlag := false, mxRecords := [] } ∧
    checkSpfRecord failEnv "example.com" = none ∧
    checkDmarcRecord failEnv "example.com" = none :=
  ⟨(claim6_theorem failEnv "example.com").1 rfl,
   (claim6_theorem failEnv "example.com").2.1 rfl,
   (claim6_theorem failEnv "example.com").2.2 rfl⟩

/-- Claim C7: for every test result the recommendations list is non-empty; the invalid-format line appears whenever isValid is false, the domain line whenever domainExists is false, the no-MX line whenever mxRecords is empty; with no deficiency the list is exactly the single success line, and otherwise it is exactly the deficiency lines, one line per deficiency found (its length is the deficiency count). -/
theorem claim7_theorem (r : EmailTestResult) :
    generateRecommendations r ≠ [] ∧
    (r.isValid = false → invalidFormatMsg ∈ generateRecommendations r) ∧
    (r.domainExists = false → domainMsg ∈ generateRecommendations r) ∧
    (r.mxRecords = [] → noMxMsg ∈ generateRecommendations r) ∧
    (deficiencyLines r = [] → generateRecommendations r = [allPassedMsg]) ∧
    (deficiencyLines r ≠ [] → generateRecommendations r = deficiencyLines r) ∧
    (generateRecommendations r).length =
      max 1 ((!r.isValid).toNat + (!r.domainExists).toNat + (r.mxRecords.length == 0).toNat +
        (strFalsy r.spfRecord).toNat + (strFalsy r.dmarcRecord).toNat +
        (outcomeFailed r.deliverabilityTests.awsSes).toNat +
        (outcomeFailed r.deliverabilityTests.smtp).toNat) := by
  have hsucc : deficiencyLines r = [] → generateRecommendations r = [allPassedMsg] := by
    intro h; simp [generateRecommendations, h]
  have hdef : deficiencyLines r ≠ [] → generateRecommendations r = deficiencyLines r := by
    intro h
    have hlen : ((deficiencyLines r).length == 0) = false := by
      simpa [List.length_eq_zero] using h
    simp [generateRecommendations, hlen]
  have hne : generateRecommendations r ≠ [] := by
    by_cases h : deficiencyLines r = []
    · rw [hsucc h]; simp
    · rw [hdef h]; exact h
  have hmem : ∀ m : String, m ∈ deficiencyLines r → m ∈ generateRecommendations r := by
    intro m hm
    rw [hdef (List.ne_nil_of_mem hm)]
    exact hm
  refine ⟨hne, fun h => ?_, fun h => ?_, fun h => ?_, hsucc, hdef, ?_⟩
  · exact hmem _ (by simp [deficiencyLines, condLine, h])
  · exact hmem _ (by simp [deficiencyLines, condLine, h])
  · exact hmem _ (by simp [deficiencyLines, condLine, h])
  · have h0 := deficiencyLines_length r
    by_cases h : deficiencyLines r = []
    · rw [h] at h0
      simp only [List.length_nil] at h0
      rw [hsucc h]
      simp only [List.length_singleton]
      omega
    · have hpos : 0 < (deficiencyLines r).length := List.length_pos.mpr h
      rw [hdef h]
      omega

/-- Claim C7, witness: a concrete multi-deficiency result. -/
theorem claim7_witness :
    generateRecommendations rBadW ≠ [] ∧
    invalidFormatMsg ∈ generateRecommendations rBadW ∧
    domainMsg ∈ generateRecommendations rBadW ∧
    noMxMsg ∈ generateRecommendations rBadW :=
  ⟨(claim7_theorem rBadW).1, (claim7_theorem rBadW).2.1 rfl,
   (claim7_theorem rBadW).2.2.1 rfl, (claim7_theorem rBadW).2.2.2.1 rfl⟩

/-- Claim C8: every string that contains no at sign, or no dot after any at sign, fails validateEmailFormat. -/
theorem claim8_theorem (s : String)
    (h : ('@' ∉ s.data) ∨ (∀ xs ys : List Char, s.data = xs ++ '@' :: ys → '.' ∉ ys)) :
    validateEmailFormat s = false := by
  unfold validateEmailFormat
  cases hs : splitAtFirstAtSign s.data with
  | none => rfl
  | some p =>
    obtain ⟨a, r⟩ := p
    have hdecomp := splitAtFirstAtSign_eq_some hs
    rcases h with h | h
    · exact absurd (by rw [hdecomp]; exact List.mem_append_right a (List.mem_cons_self _ _)) h
    · have hdot : '.' ∉ r := h a r hdecomp
      have hint : hasInteriorDot r = false := by
        cases hint : hasInteriorDot r
        · rfl
        · exact absurd (mem_of_hasInteriorDot hint) hdot
      simp [hint]

/-- Claim C8, witness: the concrete input invalid-email. -/
theorem claim8_witness : validateEmailFormat "invalid-email" = false :=
  claim8_theorem "invalid-email" (Or.inl (by decide))

/-- Claim C9: on the invalid-format short-circuit path, deliverabilityTests keeps its initial empty value: neither an awsSes nor an smtp entry is present, regardless of the requested provider. -/
theorem claim9_theorem (env : TesterEnv) (config : EmailTestConfig)
    (h : validateEmailFormat config.email = false) :
    (testEmailDeliverability env config).deliverabilityTests.awsSes = none ∧
    (testEmailDeliverability env config).deliverabilityTests.smtp = none := by
  unfold testEmailDeliverability
  simp [h]

/-- Claim C9, witness: the concrete input invalid-email with provider both. -/
theorem claim9_witness :
    (testEmailDeliverability failEnv
        { email := "invalid-email", provider := some TestProvider.both }).deliverabilityTests.awsSes = none :=
  (claim9_theorem failEnv { email := "invalid-email", provider := some TestProvider.both } (by decide)).1

/-- A failed sendWithSes result always carries an error message. -/
theorem sendWithSes_failure_error (st : EmailSenderState) (opts : EmailOptions) :
    (sendWithSes st opts).success = false → (sendWithSes st opts).error.isSome = true := by
  unfold sendWithSes
  cases st.sesClient with
  | none => intro _; rfl
  | some client =>
    by_cases ha : opts.attachments.length > 0
    · simp only [if_pos ha]
      cases hr : client.sendRawEmail opts <;> simp [hr]
    · simp only [if_neg ha]
      cases hr : client.sendEmail opts <;> simp [hr]

/-- A failed sendWithSmtp result always carries an error message. -/
theorem sendWithSmtp_failure_error (st : EmailSenderState) (opts : EmailOptions) :
    (sendWithSmtp st opts).success = false → (sendWithSmtp st opts).error.isSome = true := by
  unfold sendWithSmtp
  cases st.smtpTransporter with
  | none => intro _; rfl
  | some transporter => cases hr : transporter.verifyAndSend opts <;> simp [hr]

/-- Claim C10: send is a total function whose failures are in-band — whenever the result has success = false it carries an error message — and with neither backend configured the auto-detect path returns the no-provider failure, whose provider field is tagged aws-ses although no backend handled the attempt. -/
theorem claim10_theorem (st : EmailSenderState) (opts : EmailOptions)
    (provider : Option SendProvider) :
    ((send st opts provider).success = false → (send st opts provider).error.isSome = true) ∧
    (st.sesClient = none → st.smtpTransporter = none → send st opts none = noProviderResult) ∧
    noProviderResult.provider = SendProvider.awsSes := by
  refine ⟨?_, ?_, rfl⟩
  · match provider with
    | some SendProvider.awsSes => exact sendWithSes_failure_error st opts
    | some SendProvider.smtp => exact sendWithSmtp_failure_error st opts
    | none =>
      show ((send st opts none).success = false → _)
      unfold send
      cases hc : st.sesClient with
      | none =>
        cases ht : st.smtpTransporter with
        | none => intro _; rfl
        | some t => exact sendWithSmtp_failure_error st opts
      | some c =>
        by_cases hs : (sendWithSes st opts).success
        · simp only [hs, if_pos]
          intro hfalse
          exact absurd hfalse (by decide)
        · simp only [if_neg hs]
          cases ht : st.smtpTransporter with
          | none => intro _; rfl
          | some t => exact sendWithSmtp_failure_error st opts
  · intro h1 h2
    simp [send, h1, h2]

/-- Claim C10, witness: the unconfigured sender state. -/
theorem claim10_witness :
    ((send stNoneW optsW none).success = false → (send stNoneW optsW none).error.isSome = true) ∧
    send stNoneW optsW none = noProviderResult :=
  ⟨(claim10_theorem stNoneW optsW none).1, (claim10_theorem stNoneW optsW none).2.1 rfl rfl⟩

end EmailDeliverability
